import Mathlib

/-!
Verification of the transaction-scoped database layer of
`python_common_libs` (files `db/async_db_transaction.py` and
`db/async_db.py`).

The Python code is shallowly embedded: each method becomes a pure Lean
function over an explicit connection state.  Driver calls
(`conn.begin`, `conn.commit`, `conn.rollback`, `cursor.execute`,
`pool.acquire`, `pool.release`) are modelled by Boolean outcome
parameters (does the awaited call succeed or raise) plus an event trace
recording every driver call that was issued.  Rows and SQL parameters
are modelled abstractly.
-/

namespace PyDb

/-- A SQL parameter / cell value (the subset of Python values the code
passes to the driver: strings, integers, and null). -/
inductive Value where
  | vStr (s : String)
  | vInt (n : Int)
  | vNull
  deriving DecidableEq

/-- Python str() of a value, as used by percent-formatting of a value
into a SQL string. -/
def Value.pyStr : Value → String
  | .vStr s => s
  | .vInt n => toString n
  | .vNull => "None"

/-- A returned row: column name to value mapping in driver order. -/
def Row := List (String × Value)

instance : DecidableEq Row := by
  unfold Row
  infer_instance

/-- A driver-level call issued by the library, in issue order. -/
inductive Event where
  | evAcquire
  | evBegin
  | evCommit
  | evRollback
  | evRelease
  | evExec (sql : String) (params : List Value)
  deriving DecidableEq

/-- An exception escaping a call: either an error raised by the driver
on the named operation, or a RuntimeError raised by the library. -/
inductive PyExc where
  | driverError (op : String)
  | runtimeError (msg : String)
  deriving DecidableEq

/-- State of one `DatabaseConnection` wrapper: the `autocommit` flag
given to `__init__` and the `_in_transaction` marker (initialised to
`False` by `__init__`).  The held pool and connection objects carry no
data the model needs. -/
structure DatabaseConnection where
  autocommit : Bool
  in_transaction : Bool
  deriving DecidableEq

namespace DatabaseConnection

/-- `begin`: `await self.conn.begin(); self._in_transaction = True`.
The flag is set only after the driver call returns; on failure the
exception propagates and the flag is untouched. -/
def begin (c : DatabaseConnection) (beginOk : Bool) :
    DatabaseConnection × List Event × Option PyExc :=
  if beginOk then ({ c with in_transaction := true }, [.evBegin], none)
  else (c, [.evBegin], some (.driverError "begin"))

/-- `commit`: `await self.conn.commit(); self._in_transaction = False`. -/
def commit (c : DatabaseConnection) (commitOk : Bool) :
    DatabaseConnection × List Event × Option PyExc :=
  if commitOk then ({ c with in_transaction := false }, [.evCommit], none)
  else (c, [.evCommit], some (.driverError "commit"))

/-- `rollback`: `await self.conn.rollback(); self._in_transaction = False`. -/
def rollback (c : DatabaseConnection) (rollbackOk : Bool) :
    DatabaseConnection × List Event × Option PyExc :=
  if rollbackOk then ({ c with in_transaction := false }, [.evRollback], none)
  else (c, [.evRollback], some (.driverError "rollback"))

/-- `__aenter__`: `if not self.autocommit: await self.begin()`.
`excIn`-free; on begin failure the exception escapes `__aenter__`. -/
def aenter (c : DatabaseConnection) (beginOk : Bool) :
    DatabaseConnection × List Event × Option PyExc :=
  if c.autocommit then (c, [], none)
  else c.begin beginOk

/-- `__aexit__`: the `try` block runs rollback (if an exception
triggered the exit) or commit (clean exit) when `_in_transaction`;
the `finally` block then issues `pool.release(conn)` unconditionally.
`excIn` is whether `exc_type is not None`.  A commit/rollback failure
still reaches the `finally` and propagates after the release. -/
def aexit (c : DatabaseConnection) (excIn commitOk rollbackOk : Bool) :
    DatabaseConnection × List Event × Option PyExc :=
  let r :=
    if c.in_transaction then
      if excIn then c.rollback rollbackOk
      else c.commit commitOk
    else (c, [], none)
  (r.1, r.2.1 ++ [.evRelease], r.2.2)

/-- `query`: `cur.execute(sql, args or None); data = cur.fetchall();
return list(data) if data else []`.  `fetched` is what the driver
reports; an empty tuple (falsy) yields the literal `[]`. -/
def query (c : DatabaseConnection) (sql : String) (args : List Value)
    (execOk : Bool) (fetched : List Row) :
    DatabaseConnection × List Event × Except PyExc (List Row) :=
  if execOk then
    (c, [.evExec sql args], .ok (if fetched.isEmpty then [] else fetched))
  else (c, [.evExec sql args], .error (.driverError "execute"))

/-- `get`: `cur.execute(sql, args or None); return cur.fetchone()`. -/
def get (c : DatabaseConnection) (sql : String) (args : List Value)
    (execOk : Bool) (fetched : Option Row) :
    DatabaseConnection × List Event × Except PyExc (Option Row) :=
  if execOk then (c, [.evExec sql args], .ok fetched)
  else (c, [.evExec sql args], .error (.driverError "execute"))

/-- `execute`: `rows = cur.execute(sql, args or None); if
self.autocommit: await self.conn.commit(); return rows`.  The
per-statement commit is the raw driver call `self.conn.commit()`, not
the `commit` method, so `_in_transaction` is never touched here. -/
def execute (c : DatabaseConnection) (sql : String) (args : List Value)
    (execOk : Bool) (rows : Int) (commitOk : Bool) :
    DatabaseConnection × List Event × Except PyExc Int :=
  if execOk then
    if c.autocommit then
      if commitOk then (c, [.evExec sql args, .evCommit], .ok rows)
      else (c, [.evExec sql args, .evCommit], .error (.driverError "commit"))
    else (c, [.evExec sql args], .ok rows)
  else (c, [.evExec sql args], .error (.driverError "execute"))

/-- `insert`: builds `INSERT INTO table (fields) VALUES (placeholders)`
from the dict in iteration order, executes with the dict values bound,
then commits at driver level when `autocommit`. -/
def insert (c : DatabaseConnection) (table : String)
    (data : List (String × Value)) (execOk : Bool) (lastrowid : Int)
    (commitOk : Bool) :
    DatabaseConnection × List Event × Except PyExc Int :=
  let fields := data.map Prod.fst
  let values := data.map Prod.snd
  let placeholders := String.intercalate "," (List.replicate data.length "%s")
  let sql := "INSERT INTO " ++ table ++ " (" ++ String.intercalate "," fields
      ++ ") VALUES (" ++ placeholders ++ ")"
  if execOk then
    if c.autocommit then
      if commitOk then (c, [.evExec sql values, .evCommit], .ok lastrowid)
      else (c, [.evExec sql values, .evCommit], .error (.driverError "commit"))
    else (c, [.evExec sql values], .ok lastrowid)
  else (c, [.evExec sql values], .error (.driverError "execute"))

/-- `update`: `set_items = [f"{k}=%s" for k in data.keys()];
values = list(data.values()) + list(args);
sql = f"UPDATE {table} SET {','.join(set_items)} WHERE {where}";
return await self.execute(sql, *values)`. -/
def update (c : DatabaseConnection) (table : String)
    (data : List (String × Value)) (whereClause : String)
    (args : List Value) (execOk : Bool) (rows : Int) (commitOk : Bool) :
    DatabaseConnection × List Event × Except PyExc Int :=
  let set_items := data.map fun kv => kv.1 ++ "=%s"
  let values := data.map Prod.snd ++ args
  let sql := "UPDATE " ++ table ++ " SET " ++ String.intercalate "," set_items
      ++ " WHERE " ++ whereClause
  c.execute sql values execOk rows commitOk

end DatabaseConnection

/-- One public operation on a `DatabaseConnection` scope, with the
driver outcomes it needs.  Covers every method of the class. -/
inductive ConnOp where
  | opBegin (ok : Bool)
  | opCommit (ok : Bool)
  | opRollback (ok : Bool)
  | opQuery (sql : String) (args : List Value) (execOk : Bool) (fetched : List Row)
  | opGet (sql : String) (args : List Value) (execOk : Bool) (fetched : Option Row)
  | opExecute (sql : String) (args : List Value) (execOk : Bool) (rows : Int) (commitOk : Bool)
  | opInsert (table : String) (data : List (String × Value)) (execOk : Bool)
      (lastrowid : Int) (commitOk : Bool)
  | opUpdate (table : String) (data : List (String × Value)) (whereClause : String)
      (args : List Value) (execOk : Bool) (rows : Int) (commitOk : Bool)
  | opEnter (beginOk : Bool)
  | opExit (excIn commitOk rollbackOk : Bool)

/-- A transaction-control method call that ran to completion: the
`begin`, `commit` and `rollback` methods of the scope (not the raw
per-statement driver commits of autocommit mode). -/
inductive TxCall where
  | tbegin
  | tcommit
  | trollback
  deriving DecidableEq

namespace DatabaseConnection

/-- The state reached after one operation. -/
def step (c : DatabaseConnection) : ConnOp → DatabaseConnection
  | .opBegin ok => (c.begin ok).1
  | .opCommit ok => (c.commit ok).1
  | .opRollback ok => (c.rollback ok).1
  | .opQuery sql args execOk fetched => (c.query sql args execOk fetched).1
  | .opGet sql args execOk fetched => (c.get sql args execOk fetched).1
  | .opExecute sql args execOk rows commitOk =>
      (c.execute sql args execOk rows commitOk).1
  | .opInsert table data execOk lastrowid commitOk =>
      (c.insert table data execOk lastrowid commitOk).1
  | .opUpdate table data whereClause args execOk rows commitOk =>
      (c.update table data whereClause args execOk rows commitOk).1
  | .opEnter beginOk => (c.aenter beginOk).1
  | .opExit excIn commitOk rollbackOk => (c.aexit excIn commitOk rollbackOk).1

/-- The state after a whole sequence of operations. -/
def run (c : DatabaseConnection) : List ConnOp → DatabaseConnection
  | [] => c
  | op :: rest => (c.step op).run rest

/-- The transaction-control method calls that SUCCEED during one
operation: `begin`/`commit`/`rollback` called directly, the `begin`
issued by `__aenter__` when not autocommitting, and the
`commit`/`rollback` issued by `__aexit__` when a transaction is open. -/
def stepLog (c : DatabaseConnection) : ConnOp → List TxCall
  | .opBegin ok => if ok then [.tbegin] else []
  | .opCommit ok => if ok then [.tcommit] else []
  | .opRollback ok => if ok then [.trollback] else []
  | .opEnter beginOk =>
      if c.autocommit then [] else if beginOk then [.tbegin] else []
  | .opExit excIn commitOk rollbackOk =>
      if c.in_transaction then
        if excIn then (if rollbackOk then [.trollback] else [])
        else (if commitOk then [.tcommit] else [])
      else []
  | _ => []

/-- All successful transaction-control method calls along a run. -/
def runLog (c : DatabaseConnection) : List ConnOp → List TxCall
  | [] => []
  | op :: rest => c.stepLog op ++ (c.step op).runLog rest

end DatabaseConnection

/-- Folds a transaction-call history onto a starting flag: each
completed call leaves the transaction open exactly when it was a
`begin`. -/
def lastOpen (b : Bool) : List TxCall → Bool
  | [] => b
  | t :: rest => lastOpen (match t with | .tbegin => true | _ => false) rest

/-- Pool configuration values (`aiomysql.create_pool` keyword values). -/
inductive ConfigVal where
  | cStr (s : String)
  | cInt (n : Int)
  | cBool (b : Bool)
  | cNone
  deriving DecidableEq

/-- Lookup in a Python dict literal built left to right: the last
binding of a key wins (later entries override earlier ones). -/
def cfgGet (cfg : List (String × ConfigVal)) (k : String) : Option ConfigVal :=
  match cfg with
  | [] => none
  | kv :: rest =>
      (cfgGet rest k).orElse fun _ => if kv.1 = k then some kv.2 else none

/-- The `pool_config` dict literal built by `AsyncDatabase.connect`:
the named keyword entries, with the hard-coded `"autocommit": True`,
then `**kwargs` spread last (later keys override earlier ones).
Python's calling convention guarantees `kwargs` never holds a key equal
to a named parameter such as `autocommit`. -/
def poolConfig (host : String) (port : Int) (user password db : Option String)
    (charset : String) (minsize maxsize : Int)
    (kwargs : List (String × ConfigVal)) : List (String × ConfigVal) :=
  [("host", .cStr host), ("port", .cInt port),
   ("user", user.elim ConfigVal.cNone ConfigVal.cStr),
   ("password", password.elim ConfigVal.cNone ConfigVal.cStr),
   ("db", db.elim ConfigVal.cNone ConfigVal.cStr),
   ("charset", .cStr charset), ("minsize", .cInt minsize),
   ("maxsize", .cInt maxsize), ("autocommit", .cBool true)] ++ kwargs

/-- State of an `AsyncDatabase`: `__pool` (None before `connect`
succeeds) and `__autocommit` (defaults to `True` in `__init__`).  The
pool object itself carries no data the model needs. -/
structure AsyncDatabase where
  pool : Option Unit
  autocommitD : Bool
  deriving DecidableEq

namespace AsyncDatabase

/-- A fresh `AsyncDatabase()`. -/
def init : AsyncDatabase := { pool := none, autocommitD := true }

/-- `connect`: builds `pool_config` (pool-level `autocommit` hard-coded
to `True`), creates the pool, and stores the caller's `autocommit`
argument for later scopes.  On pool-creation failure the error is
logged and re-raised with the instance unchanged.  Returns the new
state, the config handed to the driver, and the escaping exception. -/
def connect (d : AsyncDatabase) (host : String) (port : Int)
    (user password db : Option String) (charset : String)
    (minsize maxsize : Int) (autocommit : Bool)
    (kwargs : List (String × ConfigVal)) (createOk : Bool) :
    AsyncDatabase × List (String × ConfigVal) × Option PyExc :=
  let cfg := poolConfig host port user password db charset minsize maxsize kwargs
  if createOk then
    ({ pool := some (), autocommitD := autocommit }, cfg, none)
  else (d, cfg, some (.driverError "create_pool"))

/-- `get_connection`: raises RuntimeError when `__pool is None`;
otherwise acquires a connection, issues `conn.begin()` then
`conn.commit()` on it, and wraps it in a `DatabaseConnection`
(whose `_in_transaction` starts `False`). -/
def get_connection (d : AsyncDatabase) (beginOk commitOk : Bool) :
    Except PyExc DatabaseConnection × AsyncDatabase × List Event :=
  match d.pool with
  | none =>
      (.error (.runtimeError "Database connection pool is not initialized"),
       d, [])
  | some _ =>
      if beginOk then
        if commitOk then
          (.ok { autocommit := d.autocommitD, in_transaction := false },
           d, [.evAcquire, .evBegin, .evCommit])
        else (.error (.driverError "commit"), d, [.evAcquire, .evBegin, .evCommit])
      else (.error (.driverError "begin"), d, [.evAcquire, .evBegin])

/-- The `async with await self.get_connection() as db: return await
db...` pattern shared by `query`/`get`/`execute`/`insert`/`update`.
Per Python semantics, if `__aenter__` raises then `__aexit__` is never
called (so the `finally`-release inside it never runs); otherwise the
body runs and `__aexit__` runs with `exc_type` set iff the body raised. -/
def withConn {α : Type} (d : AsyncDatabase) (beginOk commitOk enterBeginOk : Bool)
    (body : DatabaseConnection → DatabaseConnection × List Event × Except PyExc α)
    (exitCommitOk exitRollbackOk : Bool) :
    Except PyExc α × AsyncDatabase × List Event :=
  match d.get_connection beginOk commitOk with
  | (.error e, d2, evs) => (.error e, d2, evs)
  | (.ok c, d2, evs) =>
      let en := c.aenter enterBeginOk
      match en.2.2 with
      | some e => (.error e, d2, evs ++ en.2.1)
      | none =>
          let b := body en.1
          let bodyRaised := match b.2.2 with | .error _ => true | .ok _ => false
          let ex := b.1.aexit bodyRaised exitCommitOk exitRollbackOk
          let res : Except PyExc α :=
            match ex.2.2 with
            | some e2 => .error e2
            | none => b.2.2
          (res, d2, evs ++ en.2.1 ++ b.2.1 ++ ex.2.1)

/-- `AsyncDatabase.query`. -/
def query (d : AsyncDatabase) (sql : String) (args : List Value)
    (beginOk commitOk enterBeginOk execOk : Bool) (fetched : List Row)
    (exitCommitOk exitRollbackOk : Bool) :
    Except PyExc (List Row) × AsyncDatabase × List Event :=
  d.withConn beginOk commitOk enterBeginOk
    (fun c => c.query sql args execOk fetched) exitCommitOk exitRollbackOk

/-- `AsyncDatabase.get`. -/
def get (d : AsyncDatabase) (sql : String) (args : List Value)
    (beginOk commitOk enterBeginOk execOk : Bool) (fetched : Option Row)
    (exitCommitOk exitRollbackOk : Bool) :
    Except PyExc (Option Row) × AsyncDatabase × List Event :=
  d.withConn beginOk commitOk enterBeginOk
    (fun c => c.get sql args execOk fetched) exitCommitOk exitRollbackOk

/-- `AsyncDatabase.execute`. -/
def execute (d : AsyncDatabase) (sql : String) (args : List Value)
    (beginOk commitOk enterBeginOk execOk : Bool) (rows : Int)
    (stmtCommitOk exitCommitOk exitRollbackOk : Bool) :
    Except PyExc Int × AsyncDatabase × List Event :=
  d.withConn beginOk commitOk enterBeginOk
    (fun c => c.execute sql args execOk rows stmtCommitOk)
    exitCommitOk exitRollbackOk

/-- `AsyncDatabase.insert`. -/
def insert (d : AsyncDatabase) (table : String) (data : List (String × Value))
    (beginOk commitOk enterBeginOk execOk : Bool) (lastrowid : Int)
    (stmtCommitOk exitCommitOk exitRollbackOk : Bool) :
    Except PyExc Int × AsyncDatabase × List Event :=
  d.withConn beginOk commitOk enterBeginOk
    (fun c => c.insert table data execOk lastrowid stmtCommitOk)
    exitCommitOk exitRollbackOk

/-- `AsyncDatabase.update`. -/
def update (d : AsyncDatabase) (table : String) (data : List (String × Value))
    (whereClause : String) (args : List Value)
    (beginOk commitOk enterBeginOk execOk : Bool) (rows : Int)
    (stmtCommitOk exitCommitOk exitRollbackOk : Bool) :
    Except PyExc Int × AsyncDatabase × List Event :=
  d.withConn beginOk commitOk enterBeginOk
    (fun c => c.update table data whereClause args execOk rows stmtCommitOk)
    exitCommitOk exitRollbackOk

end AsyncDatabase

namespace AsyncMysqlDB

/-- Legacy `AsyncMysqlDB.query`: `cur.execute(sql, args); data =
cur.fetchall(); return data or []` — a falsy (empty) fetch result
yields the literal `[]`. -/
def query (sql : String) (args : List Value) (execOk : Bool)
    (fetched : List Row) : List Event × Except PyExc (List Row) :=
  if execOk then
    ([.evAcquire, .evExec sql args],
     .ok (if fetched.isEmpty then [] else fetched))
  else ([.evAcquire, .evExec sql args], .error (.driverError "execute"))

/-- Legacy `AsyncMysqlDB.update_table`: builds
`'UPDATE %s SET %s WHERE %s="%s"' % (table_name, upsets, field_where,
value_where)` — the WHERE value is percent-formatted straight into the
SQL text — and binds only the SET values.  Returns the SQL string and
the bound parameter list handed to `cur.execute`. -/
def update_table (table_name : String) (updates : List (String × Value))
    (field_where : String) (value_where : Value) : String × List Value :=
  let upsets := updates.map fun kv => kv.1 ++ "=%s"
  let values := updates.map Prod.snd
  let sql := "UPDATE " ++ table_name ++ " SET " ++ String.intercalate "," upsets
      ++ " WHERE " ++ field_where ++ "=\"" ++ value_where.pyStr ++ "\""
  (sql, values)

end AsyncMysqlDB

/-! ### Helper lemmas -/

theorem lastOpen_append (l1 l2 : List TxCall) (b : Bool) :
    lastOpen b (l1 ++ l2) = lastOpen (lastOpen b l1) l2 := by
  induction l1 generalizing b with
  | nil => rfl
  | cons t rest ih =>
      simp only [List.cons_append, lastOpen]
      exact ih _

theorem step_in_transaction (c : DatabaseConnection) (op : ConnOp) :
    (c.step op).in_transaction = lastOpen c.in_transaction (c.stepLog op) := by
  obtain ⟨ac, it⟩ := c
  cases op <;>
    simp only [DatabaseConnection.step, DatabaseConnection.stepLog,
      DatabaseConnection.begin, DatabaseConnection.commit,
      DatabaseConnection.rollback, DatabaseConnection.query,
      DatabaseConnection.get, DatabaseConnection.execute,
      DatabaseConnection.insert, DatabaseConnection.update,
      DatabaseConnection.aenter, DatabaseConnection.aexit, lastOpen] <;>
    (repeat' split) <;> simp_all [lastOpen]

theorem run_in_transaction (ops : List ConnOp) (c : DatabaseConnection) :
    (c.run ops).in_transaction = lastOpen c.in_transaction (c.runLog ops) := by
  induction ops generalizing c with
  | nil => rfl
  | cons op rest ih =>
      simp only [DatabaseConnection.run, DatabaseConnection.runLog,
        lastOpen_append, ih, step_in_transaction]

theorem lastOpen_getLast (l : List TxCall) (b : Bool) (h : l ≠ []) :
    (lastOpen b l = true) ↔ l.getLast? = some TxCall.tbegin := by
  induction l generalizing b with
  | nil => exact absurd rfl h
  | cons t rest ih =>
      cases rest with
      | nil => cases t <;> simp [lastOpen]
      | cons t2 r2 =>
          rw [List.getLast?_cons_cons]
          simp only [lastOpen]
          exact ih true (List.cons_ne_nil _ _)

/-! ### Claims -/

/-- C1: on `__aexit__` of any `DatabaseConnection` state: with a
transaction open and an exception triggering the exit, exactly one
rollback is issued; with a transaction open and a clean exit, exactly
one commit is issued; with no transaction open, neither is issued —
regardless of whether the commit/rollback driver calls succeed. -/
theorem aexit_rollback_commit_counts :
    ∀ (ac it excIn commitOk rollbackOk : Bool),
      (((DatabaseConnection.mk ac it).aexit excIn commitOk rollbackOk).2.1.count
          Event.evRollback = if it && excIn then 1 else 0) ∧
      (((DatabaseConnection.mk ac it).aexit excIn commitOk rollbackOk).2.1.count
          Event.evCommit = if it && !excIn then 1 else 0) := by
  decide

/-- C2: on every exit path of `__aexit__` — clean exit, exception in
the body, or the commit/rollback driver call itself failing — the held
connection is released back to the pool exactly once, and that release
is the last driver call issued (after the commit/rollback decision). -/
theorem aexit_releases_exactly_once_after_decision :
    ∀ (ac it excIn commitOk rollbackOk : Bool),
      (((DatabaseConnection.mk ac it).aexit excIn commitOk rollbackOk).2.1.count
          Event.evRelease = 1) ∧
      (((DatabaseConnection.mk ac it).aexit excIn commitOk rollbackOk).2.1.getLast?
          = some Event.evRelease) := by
  decide

/-- C3: evaluation at the failing input.  A scope entered with
`autocommit = False` whose `begin` raises: `__aenter__` propagates the
error, but since Python never calls `__aexit__` when `__aenter__`
raises, the connection acquired by `get_connection` is NEVER released
(one `acquire`, zero `release` in the trace) — contradicting the
required release-before-re-raising. -/
theorem begin_failure_leaks_connection :
    ((AsyncDatabase.mk (some ()) false).query "SELECT 1" [] true true false true
        [] true true).1 = Except.error (PyExc.driverError "begin") ∧
    ((AsyncDatabase.mk (some ()) false).query "SELECT 1" [] true true false true
        [] true true).2.2.count Event.evAcquire = 1 ∧
    ((AsyncDatabase.mk (some ()) false).query "SELECT 1" [] true true false true
        [] true true).2.2.count Event.evRelease = 0 :=
  ⟨rfl, rfl, rfl⟩

/-- C4: for every sequence of scope operations started from a freshly
constructed `DatabaseConnection` (flag `False`), `_in_transaction` is
true iff the log of transaction-control method calls that ran to
completion is non-empty and ends in a `begin` — i.e. iff a `begin`
succeeded and neither `commit` nor `rollback` has successfully run
since.  This covers begin, commit, rollback, query, get, execute,
insert, update, `__aenter__` and `__aexit__`. -/
theorem in_transaction_iff_begin_not_yet_closed (ac : Bool) (ops : List ConnOp) :
    (((DatabaseConnection.mk ac false).run ops).in_transaction = true) ↔
      ((DatabaseConnection.mk ac false).runLog ops).getLast? =
        some TxCall.tbegin := by
  rw [run_in_transaction]
  rcases h : (DatabaseConnection.mk ac false).runLog ops with _ | ⟨t, rest⟩
  · simp [lastOpen]
  · exact lastOpen_getLast _ _ (by simp)

/-- C5: with `autocommit` true, `execute` and `insert` each issue a
driver-level commit immediately after (and only after) a successfully
executed statement, and `update` delegates verbatim to `execute` on
its built statement; with `autocommit` false no per-statement commit
is issued. -/
theorem autocommit_commits_after_each_mutating_call :
    ∀ (ac it execOk commitOk : Bool) (sql table whereClause : String)
      (args wargs : List Value) (rows lastid : Int)
      (data : List (String × Value)),
      ((DatabaseConnection.mk ac it).execute sql args execOk rows commitOk).2.1 =
        Event.evExec sql args ::
          (if execOk && ac then [Event.evCommit] else []) ∧
      ((DatabaseConnection.mk ac it).insert table data execOk lastid
          commitOk).2.1 =
        Event.evExec
            ("INSERT INTO " ++ table ++ " (" ++
              String.intercalate "," (data.map Prod.fst) ++ ") VALUES (" ++
              String.intercalate "," (List.replicate data.length "%s") ++ ")")
            (data.map Prod.snd) ::
          (if execOk && ac then [Event.evCommit] else []) ∧
      (DatabaseConnection.mk ac it).update table data whereClause wargs execOk
          rows commitOk =
        (DatabaseConnection.mk ac it).execute
          ("UPDATE " ++ table ++ " SET " ++
            String.intercalate "," (data.map fun kv => kv.1 ++ "=%s") ++
            " WHERE " ++ whereClause)
          (data.map Prod.snd ++ wargs) execOk rows commitOk := by
  intro ac it execOk commitOk sql table whereClause args wargs rows lastid data
  refine ⟨?_, ?_, rfl⟩ <;>
    cases execOk <;> cases ac <;> cases commitOk <;>
      simp [DatabaseConnection.execute, DatabaseConnection.insert]

/-- C6: for a non-empty updates mapping, `update` issues the statement
`UPDATE <table> SET k=%s,... WHERE <where>` — one `k=%s` term per
updates key in iteration order — binding the updates values (in that
order) followed by the where-args. -/
theorem update_builds_sql_and_binds_params
    (ac it execOk commitOk : Bool) (table whereClause : String)
    (args : List Value) (rows : Int) (data : List (String × Value))
    (h : data ≠ []) :
    ((DatabaseConnection.mk ac it).update table data whereClause args execOk
        rows commitOk).2.1.head? =
      some (Event.evExec
        ("UPDATE " ++ table ++ " SET " ++
          String.intercalate "," (data.map fun kv => kv.1 ++ "=%s") ++
          " WHERE " ++ whereClause)
        (data.map Prod.snd ++ args)) := by
  cases execOk <;> cases ac <;> cases commitOk <;>
    simp [DatabaseConnection.update, DatabaseConnection.execute]

/-- Witness for C6 at a concrete call. -/
theorem update_builds_sql_and_binds_params_witness :
    ([("age", Value.vInt 30)] : List (String × Value)) ≠ [] ∧
    ((DatabaseConnection.mk true false).update "users" [("age", Value.vInt 30)]
        "id=%s" [Value.vInt 7] true 1 true).2.1.head? =
      some (Event.evExec
        ("UPDATE " ++ "users" ++ " SET " ++
          String.intercalate ","
            (([("age", Value.vInt 30)] : List (String × Value)).map
              fun kv => kv.1 ++ "=%s") ++ " WHERE " ++ "id=%s")
        (([("age", Value.vInt 30)] : List (String × Value)).map Prod.snd ++
          [Value.vInt 7])) :=
  ⟨by decide,
   update_builds_sql_and_binds_params true false true true "users" "id=%s"
     [Value.vInt 7] 1 [("age", Value.vInt 30)] (by decide)⟩

/-- C7: the legacy `AsyncMysqlDB.update_table` percent-formats the
WHERE value straight into the SQL text, producing
`... WHERE <field>="<value>"` with the rendered value appearing as a
substring of the statement, while only the SET values are passed to
the driver as bound parameters. -/
theorem update_table_interpolates_where_value :
    ∀ (t f : String) (updates : List (String × Value)) (v : Value),
      (AsyncMysqlDB.update_table t updates f v).1 =
        "UPDATE " ++ t ++ " SET " ++
          String.intercalate "," (updates.map fun kv => kv.1 ++ "=%s") ++
          " WHERE " ++ f ++ "=\"" ++ v.pyStr ++ "\"" ∧
      (AsyncMysqlDB.update_table t updates f v).2 = updates.map Prod.snd ∧
      ∃ pre post, (AsyncMysqlDB.update_table t updates f v).1 =
        pre ++ v.pyStr ++ post := by
  intro t f updates v
  refine ⟨rfl, rfl,
    ⟨"UPDATE " ++ t ++ " SET " ++
      String.intercalate "," (updates.map fun kv => kv.1 ++ "=%s") ++
      " WHERE " ++ f ++ "=\"", "\"", ?_⟩⟩
  simp [AsyncMysqlDB.update_table, String.append_assoc]

/-- C8: both `AsyncMysqlDB.query` and `DatabaseConnection.query`
return exactly the rows the engine reports, as a list (never a
null/None), and in particular the empty list when the engine reports
no matching rows. -/
theorem query_returns_all_rows_never_none :
    ∀ (ac it : Bool) (sql : String) (args : List Value) (fetched : List Row),
      (AsyncMysqlDB.query sql args true fetched).2 = Except.ok fetched ∧
      ((DatabaseConnection.mk ac it).query sql args true fetched).2.2 =
        Except.ok fetched ∧
      (AsyncMysqlDB.query sql args true []).2 = Except.ok ([] : List Row) := by
  intro ac it sql args fetched
  refine ⟨?_, ?_, rfl⟩ <;>
    cases fetched <;> simp [AsyncMysqlDB.query, DatabaseConnection.query]

theorem cfgGet_append (l1 l2 : List (String × ConfigVal)) (k : String) :
    cfgGet (l1 ++ l2) k = (cfgGet l2 k).orElse fun _ => cfgGet l1 k := by
  induction l1 with
  | nil =>
      cases h : cfgGet l2 k <;> simp [cfgGet, Option.orElse, h]
  | cons kv rest ih =>
      simp only [List.cons_append, cfgGet, List.append_eq]
      rw [ih]
      cases h2 : cfgGet l2 k <;> cases h3 : cfgGet rest k <;>
        simp [Option.orElse]

theorem cfgGet_eq_none (l : List (String × ConfigVal)) (k : String)
    (hk : ∀ kv ∈ l, kv.1 ≠ k) : cfgGet l k = none := by
  induction l with
  | nil => rfl
  | cons kv rest ih =>
      have h1 : kv.1 ≠ k := hk kv (List.mem_cons_self kv rest)
      have h2 : cfgGet rest k = none :=
        ih fun x hx => hk x (List.mem_cons_of_mem kv hx)
      simp [cfgGet, h2, Option.orElse, h1]

/-- C9: while `__pool is None` (before a successful `connect`),
`get_connection` — and hence every operation routed through it:
`query`, `get`, `execute`, `insert`, `update` — raises the
pool-not-initialized RuntimeError, issues no driver call, and leaves
the instance state unchanged. -/
theorem pool_not_initialized_ops_fail (d : AsyncDatabase) (h : d.pool = none)
    (sql table whereClause : String) (args wargs : List Value)
    (data : List (String × Value)) (fetched : List Row) (fetched1 : Option Row)
    (rows lastid : Int) (b1 b2 b3 b4 b5 b6 b7 : Bool) :
    d.get_connection b1 b2 =
      (Except.error
        (PyExc.runtimeError "Database connection pool is not initialized"),
       d, []) ∧
    d.query sql args b1 b2 b3 b4 fetched b5 b6 =
      (Except.error
        (PyExc.runtimeError "Database connection pool is not initialized"),
       d, []) ∧
    d.get sql args b1 b2 b3 b4 fetched1 b5 b6 =
      (Except.error
        (PyExc.runtimeError "Database connection pool is not initialized"),
       d, []) ∧
    d.execute sql args b1 b2 b3 b4 rows b7 b5 b6 =
      (Except.error
        (PyExc.runtimeError "Database connection pool is not initialized"),
       d, []) ∧
    d.insert table data b1 b2 b3 b4 lastid b7 b5 b6 =
      (Except.error
        (PyExc.runtimeError "Database connection pool is not initialized"),
       d, []) ∧
    d.update table data whereClause wargs b1 b2 b3 b4 rows b7 b5 b6 =
      (Except.error
        (PyExc.runtimeError "Database connection pool is not initialized"),
       d, []) := by
  obtain ⟨p, ad⟩ := d
  simp only [AsyncDatabase.pool] at h
  subst h
  exact ⟨rfl, rfl, rfl, rfl, rfl, rfl⟩

/-- Witness for C9 at a fresh `AsyncDatabase()` and a concrete query. -/
theorem pool_not_initialized_ops_fail_witness :
    AsyncDatabase.init.pool = none ∧
    AsyncDatabase.init.query "SELECT 1" [] true true true true [] true true =
      (Except.error
        (PyExc.runtimeError "Database connection pool is not initialized"),
       AsyncDatabase.init, []) :=
  ⟨rfl,
   (pool_not_initialized_ops_fail AsyncDatabase.init rfl "SELECT 1" "t" "w"
     [] [] [] [] none 0 0 true true true true true true true).2.1⟩

/-- C10: `connect` hands the driver a pool config whose `autocommit`
entry is the hard-coded `True` regardless of the caller's `autocommit`
argument (which, since Python's calling convention keeps named
parameters out of `**kwargs`, no kwargs entry can override), while the
caller's argument is stored only for the scopes; and a successful
`get_connection` issues exactly acquire, begin, commit on the fresh
connection and returns a wrapper whose `_in_transaction` is `False`. -/
theorem fresh_scope_clean_and_pool_autocommit_true
    (d : AsyncDatabase) (host : String) (port : Int)
    (user password db : Option String) (charset : String)
    (minsize maxsize : Int) (autocommit createOk : Bool)
    (kwargs : List (String × ConfigVal))
    (hk : ∀ kv ∈ kwargs, kv.1 ≠ "autocommit") (u : Unit)
    (hp : d.pool = some u) :
    cfgGet (d.connect host port user password db charset minsize maxsize
        autocommit kwargs createOk).2.1 "autocommit" =
      some (ConfigVal.cBool true) ∧
    (d.connect host port user password db charset minsize maxsize autocommit
        kwargs true).1.autocommitD = autocommit ∧
    (d.get_connection true true).1 =
      Except.ok
        { autocommit := d.autocommitD, in_transaction := false,
          : DatabaseConnection } ∧
    (d.get_connection true true).2.2 =
      [Event.evAcquire, Event.evBegin, Event.evCommit] := by
  refine ⟨?_, rfl, ?_, ?_⟩
  · have hcfg : (d.connect host port user password db charset minsize maxsize
        autocommit kwargs createOk).2.1 =
        poolConfig host port user password db charset minsize maxsize kwargs := by
      cases createOk <;> rfl
    rw [hcfg, poolConfig, cfgGet_append, cfgGet_eq_none kwargs _ hk]
    rfl
  · obtain ⟨p, ad⟩ := d
    simp only [AsyncDatabase.pool] at hp
    subst hp
    rfl
  · obtain ⟨p, ad⟩ := d
    simp only [AsyncDatabase.pool] at hp
    subst hp
    rfl

/-- Witness for C10 at a concrete connected instance. -/
theorem fresh_scope_clean_and_pool_autocommit_true_witness :
    (∀ kv ∈ ([] : List (String × ConfigVal)), kv.1 ≠ "autocommit") ∧
    (AsyncDatabase.mk (some ()) false).pool = some () ∧
    cfgGet ((AsyncDatabase.mk (some ()) false).connect "localhost" 3306 none
        none none "utf8mb4" 1 10 false [] true).2.1 "autocommit" =
      some (ConfigVal.cBool true) ∧
    ((AsyncDatabase.mk (some ()) false).get_connection true true).1 =
      Except.ok
        { autocommit := false, in_transaction := false,
          : DatabaseConnection } :=
  ⟨fun kv hkv => absurd hkv (List.not_mem_nil kv), rfl,
   (fresh_scope_clean_and_pool_autocommit_true (AsyncDatabase.mk (some ()) false)
     "localhost" 3306 none none none "utf8mb4" 1 10 false true []
     (fun kv hkv => absurd hkv (List.not_mem_nil kv)) () rfl).1,
   (fresh_scope_clean_and_pool_autocommit_true (AsyncDatabase.mk (some ()) false)
     "localhost" 3306 none none none "utf8mb4" 1 10 false true []
     (fun kv hkv => absurd hkv (List.not_mem_nil kv)) () rfl).2.2.1⟩

end PyDb
